import Mathlib

/-!
Shallow embedding of the R2D2 droid serial-protocol core (Python sources under
`pi/`): `Limits.py` (range-limited numeric validation), `Consts.py`
(constants and `remap`), `Serial/SerialPackets.py` (packet variants and their
byte encodings), `Serial/PacketMapping.py` (the (type, sub-type) registry) and
`Serial/Serial.py` (`SerialCommunicator.receive`).

Python runtime behaviour is modelled explicitly: fallible operations return
`Except PyError α`; Python's `None` return value is `Option.none`; Python
built-in exceptions (`TypeError`, `ValueError`, `AssertionError`,
`KeyError`, `struct.error`, `ZeroDivisionError`, `AttributeError`) and the
application's own exception classes from `Telemetry/Exceptions.py` are the
constructors of `PyError`.  Integers are unbounded (`Int`/`Nat`) as in
Python; Python floats produced by `remap` are modelled as rationals `ℚ`
(the call sites only exercise small exact values).
-/

/-- Exceptions that the modelled code can raise.  The first group are Python
built-ins; `appSerialException` and `appInvalidPathException` are the two
classes defined in `Telemetry/Exceptions.py` (`AppExceptions.SerialException`,
`AppExceptions.InvalidPathException`). -/
inductive PyError where
  | typeError
  | valueError
  | assertionError
  | keyError
  | structError
  | zeroDivisionError
  | attributeError
  | appSerialException
  | appInvalidPathException
  deriving DecidableEq, Repr

/-- `True` exactly for the application-defined exception classes of
`Telemetry/Exceptions.py` (members of `AppExceptions`); Python built-ins such
as `KeyError` are untyped from the application's point of view. -/
def PyError.isAppException : PyError → Bool
  | .appSerialException => true
  | .appInvalidPathException => true
  | _ => false

/-! ## `Limits.py` -/

/-- `NumericLimit` from `Limits.py`: inclusive numeric bounds, either of which
may be `None` (the constructor rejects both being `None`). -/
structure NumericLimit where
  min_value : Option Int
  max_value : Option Int
  deriving DecidableEq, Repr

/-- Python truthiness of an optional int: `None` and `0` are falsy. -/
def optTruthy : Option Int → Bool
  | none => false
  | some v => v != 0

/-- `NumericLimit.assert_value` from `Limits.py` lines 68-98, translated
branch by branch.

Python control flow: the body is three sequential `if` statements.

* Line 79 `if self._min_value and self._max_value is None:` guards line 80
  `if value <= self._min_value:` which returns `min` (silent) or raises
  `AssertionError`.
* Line 86 `if self._max_value and self._min_value is None:` guards line 87
  `if value >= self._max_value:` which returns `max` (silent) or raises.
* Execution that was not returned from above always reaches line 93
  `if value <= self._min_value or value >= self._max_value:`; comparing an
  `int` against `None` there raises `TypeError` (left operand first, with
  short-circuit `or`).  Its silent branch returns
  `self._min_value if value < self._min_value else self._max_value`, the loud
  branch raises `AssertionError`; otherwise the function returns `None`. -/
def NumericLimit.assert_value (l : NumericLimit) (value : Int)
    (use_silent_assert : Bool) : Except PyError (Option Int) :=
  if optTruthy l.min_value && (l.max_value == none)
      && decide (value ≤ l.min_value.getD 0) then
    if use_silent_assert then .ok l.min_value else .error .assertionError
  else if optTruthy l.max_value && (l.min_value == none)
      && decide (l.max_value.getD 0 ≤ value) then
    if use_silent_assert then .ok l.max_value else .error .assertionError
  else
    match l.min_value with
    | none => .error .typeError
    | some m =>
      if value ≤ m then
        if use_silent_assert then
          .ok (if value < m then l.min_value else l.max_value)
        else .error .assertionError
      else
        match l.max_value with
        | none => .error .typeError
        | some M =>
          if M ≤ value then
            if use_silent_assert then
              .ok (if value < m then l.min_value else l.max_value)
            else .error .assertionError
          else .ok none

/-- The named limits of class `Limits` in `Limits.py`. -/
def Limits.SIGNED_PERCENTAGE : NumericLimit := ⟨some (-100), some 100⟩

def Limits.UNSIGNED_PERCENTAGE : NumericLimit := ⟨some 0, some 100⟩

def Limits.TURN_ANGLE : NumericLimit := ⟨some (-180), some 180⟩

def Limits.POSITIVE_INT : NumericLimit := ⟨some 0, none⟩

def Limits.TWO_BYTE_UNSIGNED_INT : NumericLimit := ⟨some 0, some (2 ^ 16 - 1)⟩

/-! ## `Consts.py` -/

def ComponentConstants.PWM_BITS : ℕ := 8

/-- `PWM_MIN_VALUE` from `Consts.py` (as a Python number fed to `remap`). -/
def ComponentConstants.PWM_MIN_VALUE : ℚ := 0

/-- `PWM_MAX_VALUE = 2 ** PWM_BITS - 1` from `Consts.py`. -/
def ComponentConstants.PWM_MAX_VALUE : ℚ := 2 ^ ComponentConstants.PWM_BITS - 1

def SerialConstants.SerialPacketType.CORE : ℕ := 0x0

def SerialConstants.SerialPacketType.MOTORS : ℕ := 0x1

def SerialConstants.SerialPacketType.SENSORS : ℕ := 0x2

def SerialConstants.SerialPacketType.CONT : ℕ := 0xFE

def SerialConstants.SerialPacketType.LAST : ℕ := 0xFF

/-- The member values of the `SerialPacketType` enum: what an `int` can match
in the `packet_type not in SerialConstants.SerialPacketType.__dict__.values()`
checks (an `int` compares equal only to the `IntEnum` members among the class
dict values). -/
def SerialConstants.SerialPacketType.values : List ℕ :=
  [SerialConstants.SerialPacketType.CORE, SerialConstants.SerialPacketType.MOTORS,
   SerialConstants.SerialPacketType.SENSORS, SerialConstants.SerialPacketType.CONT,
   SerialConstants.SerialPacketType.LAST]

def SerialConstants.CoreSerialPacketType.SLEEP : ℕ := 0x1

def SerialConstants.MotorSerialPacketType.SPEED : ℕ := 0x1

def SerialConstants.MotorSerialPacketType.DRIVE : ℕ := 0x2

def SerialConstants.MotorSerialPacketType.TURN : ℕ := 0x3

/-- `remap` from `Consts.py` lines 223-238.  The two leading `if`s clamp
`value` into `[min_input, max_input]`; the division
`float(value - min_input) / float(input_span)` raises `ZeroDivisionError`
when the spans are degenerate; otherwise the result is the Python float
`min_output + scaled_thrust * output_span`, modelled exactly in `ℚ`. -/
def remap (value max_input min_input max_output min_output : ℚ) : Except PyError ℚ :=
  let value := if max_input < value then max_input else value
  let value := if value < min_input then min_input else value
  let input_span := max_input - min_input
  let output_span := max_output - min_output
  if input_span = 0 then .error .zeroDivisionError
  else .ok (min_output + (value - min_input) / input_span * output_span)

/-- The Python `.max` property of a `NumericLimit`, as the number handed to
`remap`.  Every `remap` call site in `SerialPackets.py` uses a limit whose
bounds are both present, so the `getD` default is never consulted. -/
def NumericLimit.maxQ (l : NumericLimit) : ℚ := ((l.max_value.getD 0 : Int) : ℚ)

/-- The Python `.min` property of a `NumericLimit`, as the number handed to
`remap` (see `NumericLimit.maxQ`). -/
def NumericLimit.minQ (l : NumericLimit) : ℚ := ((l.min_value.getD 0 : Int) : ℚ)

/-! ## `Serial/SerialPackets.py` -/

/-- A Python number appearing in a packet's `_fields` list: an `int`, or the
`float` produced by `remap`. -/
inductive PyNum where
  | int (v : Int)
  | float (v : ℚ)
  deriving DecidableEq, Repr

/-- One element of a Python `bytes(list)` construction: a `float` raises
`TypeError`, an `int` outside `range(0, 256)` raises `ValueError`. -/
def pyBytesElem : PyNum → Except PyError ℕ
  | .float _ => .error .typeError
  | .int v => if 0 ≤ v ∧ v < 256 then .ok v.toNat else .error .valueError

/-- Python `bytes(fields)` for a list of numbers, checked left to right. -/
def pyBytes : List PyNum → Except PyError (List ℕ)
  | [] => .ok []
  | f :: rest => do
    let b ← pyBytesElem f
    let bs ← pyBytes rest
    .ok (b :: bs)

/-- State of a `BasicSerialPacket` (`SerialPackets.py` lines 10-76): the
type byte, the `_data` payload and the `_bytes` computed at construction. -/
structure BasicSerialPacket where
  _packet_type : ℕ
  _data : List ℕ
  _bytes : List ℕ
  deriving DecidableEq, Repr

/-- `BasicSerialPacket.__init__`: rejects a packet type outside the
`SerialPacketType` values with `ValueError` (the `isinstance(data, bytes)`
check is enforced by the Lean type of `data`), then stores
`_bytes = bytes([packet_type]) + data`. -/
def BasicSerialPacket.init (packet_type : ℕ) (data : List ℕ) :
    Except PyError BasicSerialPacket :=
  if packet_type ∈ SerialConstants.SerialPacketType.values then
    .ok { _packet_type := packet_type, _data := data,
          _bytes := packet_type :: data }
  else .error .valueError

/-- `BasicSerialPacket.set`: overwrites `_data` only; `_bytes` is untouched. -/
def BasicSerialPacket.set (p : BasicSerialPacket) (data : List ℕ) :
    BasicSerialPacket :=
  { p with _data := data }

/-- The `bytes` property of `BasicSerialPacket`. -/
def BasicSerialPacket.bytes (p : BasicSerialPacket) : List ℕ := p._bytes

/-- Python tuple destructuring `a, b = t`: `ValueError` unless `t` has
exactly two elements. -/
def tupleUnpack2 (t : List ℕ) : Except PyError (ℕ × ℕ) :=
  match t with
  | [a, b] => .ok (a, b)
  | _ => .error .valueError

/-- Python tuple destructuring `a, b, c = t`. -/
def tupleUnpack3 (t : List ℕ) : Except PyError (ℕ × ℕ × ℕ) :=
  match t with
  | [a, b, c] => .ok (a, b, c)
  | _ => .error .valueError

/-- Python tuple destructuring `a, b, c, d = t`. -/
def tupleUnpack4 (t : List ℕ) : Except PyError (ℕ × ℕ × ℕ × ℕ) :=
  match t with
  | [a, b, c, d] => .ok (a, b, c, d)
  | _ => .error .valueError

/-- `struct.unpack(">H", b)`: requires exactly two bytes and yields the
one-element tuple holding the big-endian 16-bit value. -/
def structUnpackH (b : List ℕ) : Except PyError (List ℕ) :=
  match b with
  | [b0, b1] => .ok [b0 * 256 + b1]
  | _ => .error .structError

/-- `struct.unpack(">BB", b)`: requires exactly two bytes and yields a
two-element tuple. -/
def structUnpackBB (b : List ℕ) : Except PyError (List ℕ) :=
  match b with
  | [b0, b1] => .ok [b0, b1]
  | _ => .error .structError

/-- `struct.unpack(">BHB", b)`: requires exactly four bytes and yields the
three-element tuple (byte, big-endian 16-bit value, byte). -/
def structUnpackBHB (b : List ℕ) : Except PyError (List ℕ) :=
  match b with
  | [b0, b1, b2, b3] => .ok [b0, b1 * 256 + b2, b3]
  | _ => .error .structError

/-- `CoreSleepSerialPacket` state: the base packet plus `_sleep_period`. -/
structure CoreSleepSerialPacket where
  base : BasicSerialPacket
  _sleep_period : Int
  deriving DecidableEq, Repr

/-- `CoreSleepSerialPacket.__init__` (`SerialPackets.py` lines 87-102):
validates `sleep_period` against `Limits.POSITIVE_INT` (loud mode), builds
`_fields = [SLEEP, sleep_period]`, and hands `bytes(_fields)` to the base
constructor with packet type `CORE`. -/
def CoreSleepSerialPacket.init (sleep_period : Int) :
    Except PyError CoreSleepSerialPacket := do
  let _ ← Limits.POSITIVE_INT.assert_value sleep_period false
  let data ← pyBytes [.int (SerialConstants.CoreSerialPacketType.SLEEP : Int),
                      .int sleep_period]
  let base ← BasicSerialPacket.init SerialConstants.SerialPacketType.CORE data
  .ok { base := base, _sleep_period := sleep_period }

/-- The `bytes` property, inherited from `BasicSerialPacket`. -/
def CoreSleepSerialPacket.bytes (p : CoreSleepSerialPacket) : List ℕ :=
  p.base.bytes

/-- The `sleep_period` property. -/
def CoreSleepSerialPacket.sleep_period (p : CoreSleepSerialPacket) : Int :=
  p._sleep_period

/-- `CoreSleepSerialPacket.from_bytes` (lines 108-111):
`sleep_period, _ = struct.unpack(">H", byte_array)` destructures the
one-element tuple produced by `">H"` into two targets, then constructs the
packet. -/
def CoreSleepSerialPacket.from_bytes (byte_array : List ℕ) :
    Except PyError CoreSleepSerialPacket := do
  let t ← structUnpackH byte_array
  let (sleep_period, _) ← tupleUnpack2 t
  CoreSleepSerialPacket.init (sleep_period : Int)

/-- `MotorSpeedSerialPacket` state. -/
structure MotorSpeedSerialPacket where
  base : BasicSerialPacket
  _motor_id : Int
  _speed : Int
  deriving DecidableEq, Repr

/-- `MotorSpeedSerialPacket.__init__` (lines 124-143): validates `speed`
against `Limits.SIGNED_PERCENTAGE` (loud mode), builds
`_fields = [SPEED, motor_id, int(speed)]` and hands `bytes(_fields)` to the
base constructor with packet type `MOTORS`. -/
def MotorSpeedSerialPacket.init (motor_id : Int) (speed : Int) :
    Except PyError MotorSpeedSerialPacket := do
  let _ ← Limits.SIGNED_PERCENTAGE.assert_value speed false
  let data ← pyBytes [.int (SerialConstants.MotorSerialPacketType.SPEED : Int),
                      .int motor_id, .int speed]
  let base ← BasicSerialPacket.init SerialConstants.SerialPacketType.MOTORS data
  .ok { base := base, _motor_id := motor_id, _speed := speed }

/-- The `bytes` property, inherited from `BasicSerialPacket`. -/
def MotorSpeedSerialPacket.bytes (p : MotorSpeedSerialPacket) : List ℕ :=
  p.base.bytes

/-- The `motor_id` property. -/
def MotorSpeedSerialPacket.motor_id (p : MotorSpeedSerialPacket) : Int :=
  p._motor_id

/-- The `speed` property. -/
def MotorSpeedSerialPacket.speed (p : MotorSpeedSerialPacket) : Int :=
  p._speed

/-- `MotorSpeedSerialPacket.from_bytes` (lines 145-148):
`motor_id, motor_speed, _ = struct.unpack(">BB", byte_array)` destructures
the two-element tuple produced by `">BB"` into three targets, then constructs
the packet. -/
def MotorSpeedSerialPacket.from_bytes (byte_array : List ℕ) :
    Except PyError MotorSpeedSerialPacket := do
  let t ← structUnpackBB byte_array
  let (motor_id, motor_speed, _) ← tupleUnpack3 t
  MotorSpeedSerialPacket.init (motor_id : Int) (motor_speed : Int)

/-- `DriveSerialPacket` state. -/
structure DriveSerialPacket where
  base : BasicSerialPacket
  _direction : ℚ
  _distance : ℚ
  _speed : ℚ
  deriving DecidableEq, Repr

/-- `DriveSerialPacket.__init__` (lines 164-202): its first statement is
`Limits.TWO_BYTE_UINT.assert_value(distance)`, but class `Limits` defines no
attribute `TWO_BYTE_UINT` (the limit is named `TWO_BYTE_UNSIGNED_INT`), so
the attribute access raises `AttributeError` unconditionally and the rest of
the body (direction assert, distance split, speed remap) is unreachable. -/
def DriveSerialPacket.init (direction distance speed : ℚ) :
    Except PyError DriveSerialPacket :=
  .error .attributeError

/-- `DriveSerialPacket.from_bytes` (lines 204-212):
`direction, distance, speed, _ = struct.unpack(">BHB", byte_array)`
destructures the three-element tuple produced by `">BHB"` into four targets,
then remaps `speed` from the PWM range and constructs the packet. -/
def DriveSerialPacket.from_bytes (byte_array : List ℕ) :
    Except PyError DriveSerialPacket := do
  let t ← structUnpackBHB byte_array
  let (direction, distance, speed, _) ← tupleUnpack4 t
  let speed ← remap (speed : ℚ) ComponentConstants.PWM_MAX_VALUE
      ComponentConstants.PWM_MIN_VALUE Limits.SIGNED_PERCENTAGE.maxQ
      Limits.SIGNED_PERCENTAGE.minQ
  DriveSerialPacket.init (direction : ℚ) (distance : ℚ) speed

/-- `TurnSerialPacket` state. -/
structure TurnSerialPacket where
  base : BasicSerialPacket
  _angle : ℚ
  _speed : ℚ
  deriving DecidableEq, Repr

/-- `TurnSerialPacket.__init__` (lines 232-256): remaps `angle` using the
bounds of `Limits.SIGNED_PERCENTAGE` (note: not `TURN_ANGLE`) and `speed`
using `Limits.UNSIGNED_PERCENTAGE` into the PWM range — both remaps yield
Python floats — then hands
`bytes([TURN, adjusted_angle, adjusted_speed])` to the base constructor.
No `assert_value` call is made in this constructor. -/
def TurnSerialPacket.init (angle speed : ℚ) :
    Except PyError TurnSerialPacket := do
  let adjusted_angle ← remap angle Limits.SIGNED_PERCENTAGE.maxQ
      Limits.SIGNED_PERCENTAGE.minQ ComponentConstants.PWM_MAX_VALUE
      ComponentConstants.PWM_MIN_VALUE
  let adjusted_speed ← remap speed Limits.UNSIGNED_PERCENTAGE.maxQ
      Limits.UNSIGNED_PERCENTAGE.minQ ComponentConstants.PWM_MAX_VALUE
      ComponentConstants.PWM_MIN_VALUE
  let data ← pyBytes [.int (SerialConstants.MotorSerialPacketType.TURN : Int),
                      .float adjusted_angle, .float adjusted_speed]
  let base ← BasicSerialPacket.init SerialConstants.SerialPacketType.MOTORS data
  .ok { base := base, _angle := angle, _speed := speed }

/-- The `bytes` property, inherited from `BasicSerialPacket`. -/
def TurnSerialPacket.bytes (p : TurnSerialPacket) : List ℕ :=
  p.base.bytes

/-- The `angle` property. -/
def TurnSerialPacket.angle (p : TurnSerialPacket) : ℚ := p._angle

/-- The `speed` property. -/
def TurnSerialPacket.speed (p : TurnSerialPacket) : ℚ := p._speed

/-- `TurnSerialPacket.from_bytes` (lines 258-270):
`angle, speed, _ = struct.unpack(">BB", byte_array)` destructures the
two-element tuple produced by `">BB"` into three targets, then inversely
remaps angle (via `TURN_ANGLE`) and speed (via `UNSIGNED_PERCENTAGE`) from
the PWM range and constructs the packet. -/
def TurnSerialPacket.from_bytes (byte_array : List ℕ) :
    Except PyError TurnSerialPacket := do
  let t ← structUnpackBB byte_array
  let (angle, speed, _) ← tupleUnpack3 t
  let angle ← remap (angle : ℚ) ComponentConstants.PWM_MAX_VALUE
      ComponentConstants.PWM_MIN_VALUE Limits.TURN_ANGLE.maxQ
      Limits.TURN_ANGLE.minQ
  let speed ← remap (speed : ℚ) ComponentConstants.PWM_MAX_VALUE
      ComponentConstants.PWM_MIN_VALUE Limits.UNSIGNED_PERCENTAGE.maxQ
      Limits.UNSIGNED_PERCENTAGE.minQ
  TurnSerialPacket.init angle speed

/-! ## `Serial/PacketMapping.py` and `Serial/Serial.py` -/

/-- The four packet classes registered in `PACKET_MAPPING`. -/
inductive PacketClass where
  | coreSleep
  | motorSpeed
  | drive
  | turn
  deriving DecidableEq, Repr

/-- `PACKET_MAPPING` from `Serial/PacketMapping.py`: the dict from
`(packet type value, sub-type value)` to the packet class (the `IntEnum`
keys hash and compare as their integer values, so an integer key pair from
`struct.unpack` hits these entries). -/
def PACKET_MAPPING : List ((ℕ × ℕ) × PacketClass) :=
  [((SerialConstants.SerialPacketType.CORE, SerialConstants.CoreSerialPacketType.SLEEP),
      .coreSleep),
   ((SerialConstants.SerialPacketType.MOTORS, SerialConstants.MotorSerialPacketType.SPEED),
      .motorSpeed),
   ((SerialConstants.SerialPacketType.MOTORS, SerialConstants.MotorSerialPacketType.DRIVE),
      .drive),
   ((SerialConstants.SerialPacketType.MOTORS, SerialConstants.MotorSerialPacketType.TURN),
      .turn)]

/-- The call `packet_class(packet_data)` on `Serial.py` line 78, which hands
the single one-byte payload from `struct.unpack("BBs", ...)` to the chosen
class's constructor.  Every registered constructor raises `TypeError` on
such a call: `CoreSleepSerialPacket` accepts one argument but then runs
`POSITIVE_INT.assert_value` on a `bytes` object, whose `bytes <= int`
comparison raises `TypeError`; the other three constructors require more
positional arguments than the one supplied, so the call itself raises
`TypeError`. -/
def callPacketClass (cls : PacketClass) (packet_data : ℕ) :
    Except PyError BasicSerialPacket :=
  match cls, packet_data with
  | .coreSleep, _ => .error .typeError
  | .motorSpeed, _ => .error .typeError
  | .drive, _ => .error .typeError
  | .turn, _ => .error .typeError

/-- Python `raw.rstrip(b"\n")`: removes every trailing `0x0A` byte. -/
def rstripNewline (l : List ℕ) : List ℕ :=
  (l.reverse.dropWhile (· == 10)).reverse

/-- `struct.unpack(SerialConstants.STRUCT_FORMAT, raw_data)` with
`STRUCT_FORMAT = "BBs"` (`Consts.py` line 131): two unsigned chars followed
by a one-byte `s` field, so the input must be exactly three bytes long or
`struct.error` is raised. -/
def structUnpackBBs (b : List ℕ) : Except PyError (ℕ × ℕ × ℕ) :=
  match b with
  | [t, s, d] => .ok (t, s, d)
  | _ => .error .structError

/-- `SerialCommunicator.receive` (`Serial.py` lines 61-78).  `is_open` is the
state of the underlying port (`self._serial_port.is_open`); `line` is the
byte sequence returned by `self._serial_port.readline()`.  The body strips
trailing terminators, unpacks with `"BBs"`, rejects unknown packet-type
bytes with the application's `SerialException`, looks the `(type, sub-type)`
pair up in `PACKET_MAPPING` (a missing key raises Python's `KeyError`), and
finally calls the resolved class on the payload. -/
def SerialCommunicator.receive (is_open : Bool) (line : List ℕ) :
    Except PyError BasicSerialPacket := do
  if !is_open then throw .appSerialException
  let raw_data := rstripNewline line
  let (packet_type, packet_subtype, packet_data) ← structUnpackBBs raw_data
  if !(packet_type ∈ SerialConstants.SerialPacketType.values) then
    throw .appSerialException
  match PACKET_MAPPING.lookup (packet_type, packet_subtype) with
  | none => throw .keyError
  | some packet_class => callPacketClass packet_class packet_data

/-! ## Claim theorems -/

/-- C2: the claim says a loud `assert_value` fails exactly when the value is
strictly outside the inclusive range, with values equal to a bound always
valid and an absent bound unconstrained.  The code refutes this: with both
bounds present it rejects the bounds themselves (line 93 uses `<=`/`>=`), and
for `POSITIVE_INT` (absent max) every positive value raises `TypeError` from
comparing the value against `None`, while the inclusive minimum `0` is
rejected with `AssertionError`.  An ordinary interior value does pass. -/
theorem assert_value_loud_boundary_and_onesided_failures :
    Limits.SIGNED_PERCENTAGE.assert_value 100 false = .error .assertionError ∧
    Limits.SIGNED_PERCENTAGE.assert_value (-100) false = .error .assertionError ∧
    Limits.TURN_ANGLE.assert_value 180 false = .error .assertionError ∧
    Limits.POSITIVE_INT.assert_value 300 false = .error .typeError ∧
    Limits.POSITIVE_INT.assert_value 0 false = .error .assertionError ∧
    Limits.SIGNED_PERCENTAGE.assert_value 95 false = .ok none ∧
    ∀ (m M v : Int),
      NumericLimit.assert_value ⟨some m, some M⟩ v false
        = if v ≤ m ∨ M ≤ v then .error .assertionError else .ok none := by
  refine ⟨rfl, rfl, rfl, rfl, rfl, rfl, ?_⟩
  intro m M v
  simp only [NumericLimit.assert_value, optTruthy]
  split_ifs with h1 h2 h3 h4 h5 <;> try simp_all
  omega

/-- C3: the claim says a silent `assert_value` never fails and returns an
in-range value, clamping out-of-range input to the nearer bound and passing
in-range values through unchanged.  The code refutes this: for
`POSITIVE_INT` (absent max) any positive value raises `TypeError`; a value
equal to the minimum of a two-sided limit is "clamped" to the maximum
instead of passing through; an interior value returns Python `None`, not the
value.  Clamping of a too-large value does work. -/
theorem assert_value_silent_failures :
    Limits.POSITIVE_INT.assert_value 5 true = .error .typeError ∧
    Limits.SIGNED_PERCENTAGE.assert_value (-100) true = .ok (some 100) ∧
    Limits.SIGNED_PERCENTAGE.assert_value 50 true = .ok none ∧
    Limits.SIGNED_PERCENTAGE.assert_value 101 true = .ok (some 100) ∧
    Limits.SIGNED_PERCENTAGE.assert_value (-142) true = .ok (some (-100)) :=
  ⟨rfl, rfl, rfl, rfl, rfl⟩

/-- C4: the claim says `CoreSleep(sleep_period=300)` succeeds and encodes to
`[0x00, 0x01, 0x01, 0x2C]`.  The code refutes this: the `POSITIVE_INT`
limit check raises `TypeError` (`300 >= None`); independently, the
constructor places `sleep_period` into the fields list without an MSB/LSB
split, so `bytes([SLEEP, 300])` would raise `ValueError`; in fact no
`sleep_period` whatsoever lets the constructor succeed. -/
theorem coreSleep_300_raises :
    CoreSleepSerialPacket.init 300 = .error .typeError ∧
    pyBytes [.int (SerialConstants.CoreSerialPacketType.SLEEP : Int), .int 300]
      = .error .valueError ∧
    ∀ sleep_period : Int, ∃ e, CoreSleepSerialPacket.init sleep_period = .error e := by
  refine ⟨rfl, rfl, ?_⟩
  intro sp
  rcases le_or_lt sp 0 with h | h
  · exact ⟨.assertionError, by
      simp [CoreSleepSerialPacket.init, NumericLimit.assert_value,
            Limits.POSITIVE_INT, optTruthy, h, Bind.bind, Except.bind]⟩
  · exact ⟨.typeError, by
      simp [CoreSleepSerialPacket.init, NumericLimit.assert_value,
            Limits.POSITIVE_INT, optTruthy, not_le.mpr h, Bind.bind, Except.bind]⟩

/-- C5: `MotorSpeed(motor_id=5, speed=95)` succeeds, stores its fields, and
encodes to exactly `[0x01, 0x01, 0x05, 0x5F]` (MOTORS, SPEED, id, raw
signed-percentage byte), as the claim states. -/
theorem motorSpeed_5_95_encodes :
    ∃ p, MotorSpeedSerialPacket.init 5 95 = .ok p ∧
      p.bytes = [0x01, 0x01, 0x05, 0x5F] ∧
      p.motor_id = 5 ∧ p.speed = 95 :=
  ⟨_, rfl, rfl, rfl, rfl⟩

/-- C9: the `bytes` property returns the sequence computed at construction
(the type byte followed by the constructed data), and `set(new_data)` only
rewrites `_data`, leaving the value returned by `bytes` unchanged. -/
theorem set_does_not_change_bytes :
    (∀ (packet_type : ℕ) (data : List ℕ) (p : BasicSerialPacket),
        BasicSerialPacket.init packet_type data = .ok p →
        p.bytes = packet_type :: data) ∧
    (∀ (p : BasicSerialPacket) (data : List ℕ), (p.set data).bytes = p.bytes) := by
  constructor
  · intro packet_type data p h
    unfold BasicSerialPacket.init at h
    split_ifs at h with hmem
    · cases h
      rfl
  · intro p data
    rfl

/-- Witness for C9: a concretely constructed packet has `bytes = type :: data`,
and `set` leaves `bytes` untouched. -/
theorem set_does_not_change_bytes_witness :
    BasicSerialPacket.bytes
        { _packet_type := 1, _data := [1, 5, 95], _bytes := [1, 1, 5, 95] }
      = 1 :: [1, 5, 95] ∧
    (BasicSerialPacket.set
        { _packet_type := 1, _data := [1, 5, 95], _bytes := [1, 1, 5, 95] }
        [9]).bytes
      = BasicSerialPacket.bytes
        { _packet_type := 1, _data := [1, 5, 95], _bytes := [1, 1, 5, 95] } :=
  ⟨set_does_not_change_bytes.1 1 [1, 5, 95] _ rfl,
   set_does_not_change_bytes.2 _ [9]⟩

/-- Helper: when the input span is non-degenerate, `remap` succeeds and
returns the linear rescale of the clamped value. -/
theorem remap_total_of_span_ne (value max_input min_input max_output min_output : ℚ)
    (h : max_input - min_input ≠ 0) :
    remap value max_input min_input max_output min_output
      = .ok (min_output +
          ((if (if max_input < value then max_input else value) < min_input
            then min_input
            else if max_input < value then max_input else value) - min_input)
            / (max_input - min_input) * (max_output - min_output)) := by
  simp only [remap, if_neg h]

/-- C1: the claim says every variant round-trips
(`decode(encode(fields)) == fields` and `encode(decode(bytes)) == bytes`).
The code refutes this: while `MotorSpeed(5, 95)` does encode, every one of
the four `from_bytes` methods destructures the tuple returned by
`struct.unpack` into one more target than the format produces (`">H"` gives
1 value to 2 targets, `">BB"` 2 to 3, `">BHB"` 3 to 4), so decoding raises
`ValueError` on every possible input and no round-trip can ever succeed. -/
theorem from_bytes_never_decodes :
    (∃ p, MotorSpeedSerialPacket.init 5 95 = .ok p ∧
        p.bytes = [0x01, 0x01, 0x05, 0x5F]) ∧
    (∀ b, ∃ e, MotorSpeedSerialPacket.from_bytes b = .error e) ∧
    (∀ b, ∃ e, CoreSleepSerialPacket.from_bytes b = .error e) ∧
    (∀ b, ∃ e, DriveSerialPacket.from_bytes b = .error e) ∧
    (∀ b, ∃ e, TurnSerialPacket.from_bytes b = .error e) := by
  refine ⟨⟨_, rfl, rfl⟩, ?_, ?_, ?_, ?_⟩
  · intro b
    rcases b with _ | ⟨b0, _ | ⟨b1, _ | ⟨b2, r⟩⟩⟩
    · exact ⟨.structError, rfl⟩
    · exact ⟨.structError, rfl⟩
    · exact ⟨.valueError, rfl⟩
    · exact ⟨.structError, rfl⟩
  · intro b
    rcases b with _ | ⟨b0, _ | ⟨b1, _ | ⟨b2, r⟩⟩⟩
    · exact ⟨.structError, rfl⟩
    · exact ⟨.structError, rfl⟩
    · exact ⟨.valueError, rfl⟩
    · exact ⟨.structError, rfl⟩
  · intro b
    rcases b with _ | ⟨b0, _ | ⟨b1, _ | ⟨b2, _ | ⟨b3, _ | ⟨b4, r⟩⟩⟩⟩⟩
    · exact ⟨.structError, rfl⟩
    · exact ⟨.structError, rfl⟩
    · exact ⟨.structError, rfl⟩
    · exact ⟨.structError, rfl⟩
    · exact ⟨.valueError, rfl⟩
    · exact ⟨.structError, rfl⟩
  · intro b
    rcases b with _ | ⟨b0, _ | ⟨b1, _ | ⟨b2, r⟩⟩⟩
    · exact ⟨.structError, rfl⟩
    · exact ⟨.structError, rfl⟩
    · exact ⟨.valueError, rfl⟩
    · exact ⟨.structError, rfl⟩

/-- C6: `remap` is monotonic in its value argument over a non-degenerate,
non-inverted source range and non-inverted destination span; moreover it
never fails on any input value and first silently clamps the value into
`[min_input, max_input]` (remapping `v` equals remapping the clamped `v`). -/
theorem remap_monotonic (max_input min_input max_output min_output a b : ℚ)
    (hin : min_input < max_input) (hout : min_output ≤ max_output)
    (ha : min_input ≤ a) (hab : a ≤ b) (hb : b ≤ max_input) :
    (∃ ra rb, remap a max_input min_input max_output min_output = .ok ra ∧
              remap b max_input min_input max_output min_output = .ok rb ∧
              ra ≤ rb) ∧
    (∀ v, ∃ r, remap v max_input min_input max_output min_output = .ok r) ∧
    (∀ v, remap v max_input min_input max_output min_output
        = remap (max min_input (min v max_input))
            max_input min_input max_output min_output) := by
  have hne : max_input - min_input ≠ 0 := sub_ne_zero.mpr (ne_of_gt hin)
  refine ⟨⟨_, _, remap_total_of_span_ne a _ _ _ _ hne,
              remap_total_of_span_ne b _ _ _ _ hne, ?_⟩, ?_, ?_⟩
  · rw [if_neg (not_lt.mpr (hab.trans hb)), if_neg (not_lt.mpr ha),
        if_neg (not_lt.mpr hb), if_neg (not_lt.mpr (ha.trans hab))]
    have h1 : (a - min_input) / (max_input - min_input)
        ≤ (b - min_input) / (max_input - min_input) :=
      (div_le_div_iff_of_pos_right (sub_pos.mpr hin)).mpr (sub_le_sub_right hab _)
    exact add_le_add_left (mul_le_mul_of_nonneg_right h1 (sub_nonneg.mpr hout)) _
  · intro v
    exact ⟨_, remap_total_of_span_ne v _ _ _ _ hne⟩
  · intro v
    by_cases hlo : v < min_input
    · have e : max min_input (min v max_input) = min_input := by
        rw [min_eq_left (hlo.le.trans hin.le), max_eq_left hlo.le]
      rw [e, remap_total_of_span_ne v _ _ _ _ hne,
          remap_total_of_span_ne min_input _ _ _ _ hne,
          if_neg (not_lt.mpr (hlo.le.trans hin.le)), if_pos hlo,
          if_neg (not_lt.mpr hin.le), if_neg (lt_irrefl min_input)]
    · by_cases hhi : max_input < v
      · have e : max min_input (min v max_input) = max_input := by
          rw [min_eq_right hhi.le, max_eq_right hin.le]
        rw [e, remap_total_of_span_ne v _ _ _ _ hne,
            remap_total_of_span_ne max_input _ _ _ _ hne,
            if_pos hhi, if_neg (lt_irrefl max_input),
            if_neg (not_lt.mpr hin.le)]
      · have e : max min_input (min v max_input) = v := by
          rw [min_eq_left (not_lt.mp hhi), max_eq_right (not_lt.mp hlo)]
        rw [e]

/-- Witness for C6: the monotonicity and clamping facts instantiated on the
concrete source range `[0, 100]`, destination span `[0, 255]` and values
`10 ≤ 20`. -/
theorem remap_monotonic_witness :
    (∃ ra rb, remap 10 100 0 255 0 = .ok ra ∧ remap 20 100 0 255 0 = .ok rb ∧
              ra ≤ rb) ∧
    (∀ v, ∃ r, remap v 100 0 255 0 = .ok r) ∧
    (∀ v, remap v 100 0 255 0 = remap (max 0 (min v 100)) 100 0 255 0) :=
  remap_monotonic 100 0 255 0 10 20 (by norm_num) (by norm_num) (by norm_num)
    (by norm_num) (by norm_num)

/-- Counterexample to C7 as stated: `receive()` on the frame
`[0xFF, 0x01, 0x00]` (LAST marker) raises Python's plain `KeyError` from the
`PACKET_MAPPING[(packet_type, packet_subtype)]` dict subscript — not a typed
unknown-packet application exception (no `UnknownPacketError` class exists
anywhere in the code; the application's own exception classes are listed in
`PyError.isAppException`). -/
theorem receive_last_marker_keyerror_cex :
    SerialCommunicator.receive true [0xFF, 0x01, 0x00, 10] = .error .keyError ∧
    PyError.isAppException .keyError = false := ⟨rfl, rfl⟩

/-- C7 (amended): `receive()` on any length-3 frame whose leading packet-type
byte is `0xFF` (the LAST marker, registered in no `PACKET_MAPPING` entry)
fails — but with Python's untyped `KeyError` from the registry dict lookup,
since the code performs a bare subscript and defines no unknown-packet
exception type. -/
theorem receive_last_marker_keyerror (sub d : ℕ) (hd : d ≠ 10) :
    SerialCommunicator.receive true
        [SerialConstants.SerialPacketType.LAST, sub, d, 10] = .error .keyError := by
  have hbeq : (d == 10) = false := beq_eq_false_iff_ne.mpr hd
  have hstrip : rstripNewline [SerialConstants.SerialPacketType.LAST, sub, d, 10]
      = [SerialConstants.SerialPacketType.LAST, sub, d] := by
    simp [rstripNewline, List.dropWhile, hbeq]
  simp only [SerialCommunicator.receive, hstrip]
  rfl

/-- Witness for C7 (amended): the `[0xFF, 0x01, 0x00]` frame concretely. -/
theorem receive_last_marker_keyerror_witness :
    SerialCommunicator.receive true
        [SerialConstants.SerialPacketType.LAST, 1, 0, 10] = .error .keyError :=
  receive_last_marker_keyerror 1 0 (by decide)

/-- C8: the claim says `Turn(angle=180, speed=100)` succeeds and round-trips
within ±1 unit.  The code refutes this: the constructor feeds the floats
returned by `remap` straight into `bytes(self._fields)`, which raises
`TypeError` (`bytes()` rejects floats), so the constructor fails on the
claimed input — indeed on every input — and `TurnSerialPacket.from_bytes`
cannot round-trip anything. -/
theorem turn_constructor_always_raises :
    TurnSerialPacket.init 180 100 = .error .typeError ∧
    ∀ angle speed : ℚ, TurnSerialPacket.init angle speed = .error .typeError := by
  have h : ∀ angle speed : ℚ,
      TurnSerialPacket.init angle speed = .error .typeError := by
    intro angle speed
    unfold TurnSerialPacket.init
    rw [remap_total_of_span_ne angle _ _ _ _ (by
          norm_num [Limits.SIGNED_PERCENTAGE, NumericLimit.maxQ, NumericLimit.minQ]),
        remap_total_of_span_ne speed _ _ _ _ (by
          norm_num [Limits.UNSIGNED_PERCENTAGE, NumericLimit.maxQ, NumericLimit.minQ])]
    rfl
  exact ⟨h 180 100, h⟩

/-- Helper for C10: `struct.unpack("BBs", ...)` raises `struct.error` unless
its input is exactly three bytes long. -/
theorem structUnpackBBs_of_length_ne (l : List ℕ) (h : l.length ≠ 3) :
    structUnpackBBs l = .error .structError := by
  rcases l with _ | ⟨a, _ | ⟨b, _ | ⟨c, _ | ⟨d, r⟩⟩⟩⟩ <;>
    simp_all [structUnpackBBs]

/-- C10: `receive()` parses every frame with the fixed `"BBs"` format, so any
received line whose terminator-stripped length is not exactly 3 bytes fails
with the parse error (`struct.error`); in particular a frame laid out like a
Drive packet (type, sub-type and 4 payload bytes) can never be parsed. -/
theorem receive_requires_three_byte_frame :
    (∀ line, (rstripNewline line).length ≠ 3 →
        SerialCommunicator.receive true line = .error .structError) ∧
    SerialCommunicator.receive true [0x01, 0x02, 0x00, 0x01, 0x2C, 0x5F, 10]
      = .error .structError := by
  constructor
  · intro line h
    simp [SerialCommunicator.receive, structUnpackBBs_of_length_ne _ h,
          pure, Except.pure, Bind.bind, Except.bind]
  · rfl

/-- Witness for C10: a two-byte line concretely fails with `struct.error`. -/
theorem receive_requires_three_byte_frame_witness :
    SerialCommunicator.receive true [0x00, 10] = .error .structError :=
  receive_requires_three_byte_frame.1 [0x00, 10] (by decide)
